import Mathlib

/-!
# rs232: serial line configuration and I/O contract

A shallow embedding of `rs232.go` (package `rs232`) and theorems about it.

* Go `uint32` flag words are natural numbers; the only operations the package
  applies to them are `|=` and `&^=`, neither of which can leave the word size.
* Go `int` values (`BaudRate`, `DataBits`, `ReadTimeout`, byte counts) are integers.
* Calls into the operating system (`Tcgetattr`, `Tcsetattr`, opening, reading,
  writing and closing the file) are modelled by making their outcome an
  explicit argument of the operation.
-/

namespace Serial

/-! ## Go values -/

/-- Go error values that the package produces or passes on. -/
inductive GoError where
  /-- A `syscall.Errno` value. -/
  | errno (code : Nat)
  /-- The sentinel `io.EOF`. -/
  | EOF
  /-- The sentinel `io.ErrShortWrite`. -/
  | ErrShortWrite
  /-- A `*os.PathError` with fields `Op`, `Path`, `Err`. -/
  | PathError (op : String) (path : String) (err : GoError)
  deriving DecidableEq, Repr

/-- The errno `syscall.EINVAL` (invalid argument), value `0x16` on Linux. -/
def EINVAL : GoError := GoError.errno 22

/-- Go's bit-clear operator `a &^ m`: the bits of `a` that are not in `m`. -/
def andNot (a m : Nat) : Nat := a ^^^ (a &&& m)

/-- Go's conversion `uint8(x)` of an `int`: the low eight bits. -/
def uint8 (x : Int) : Nat := (x % 256).toNat

/-! ## Constants of package `syscall`

The flag masks, rate constants and array indices below belong to Go's standard
library, not to this package. The package names rates (`B57600` to `B4000000`)
that `syscall` defines on Linux only; the values are those of
`zerrors_linux_amd64.go`, shared by the generic Linux architectures. `CBAUD`
is the baud-field mask of the Linux `termios` interface. -/

def IGNBRK : Nat := 0x1
def BRKINT : Nat := 0x2
def PARMRK : Nat := 0x8
def ISTRIP : Nat := 0x20
def INLCR : Nat := 0x40
def IGNCR : Nat := 0x80
def ICRNL : Nat := 0x100
def IXON : Nat := 0x400

def OPOST : Nat := 0x1

def ISIG : Nat := 0x1
def ICANON : Nat := 0x2
def ECHO : Nat := 0x8
def ECHONL : Nat := 0x40
def IEXTEN : Nat := 0x8000

def CBAUD : Nat := 0x100f
def CSIZE : Nat := 0x30
def CS5 : Nat := 0x0
def CS6 : Nat := 0x10
def CS7 : Nat := 0x20
def CS8 : Nat := 0x30
def CSTOPB : Nat := 0x40
def PARENB : Nat := 0x100
def PARODD : Nat := 0x200

def B50 : Nat := 0x1
def B75 : Nat := 0x2
def B110 : Nat := 0x3
def B134 : Nat := 0x4
def B150 : Nat := 0x5
def B200 : Nat := 0x6
def B300 : Nat := 0x7
def B600 : Nat := 0x8
def B1200 : Nat := 0x9
def B1800 : Nat := 0xa
def B2400 : Nat := 0xb
def B4800 : Nat := 0xc
def B9600 : Nat := 0xd
def B19200 : Nat := 0xe
def B38400 : Nat := 0xf
def B57600 : Nat := 0x1001
def B115200 : Nat := 0x1002
def B230400 : Nat := 0x1003
def B460800 : Nat := 0x1004
def B500000 : Nat := 0x1005
def B576000 : Nat := 0x1006
def B921600 : Nat := 0x1007
def B1000000 : Nat := 0x1008
def B1152000 : Nat := 0x1009
def B1500000 : Nat := 0x100a
def B2000000 : Nat := 0x100b
def B2500000 : Nat := 0x100c
def B3000000 : Nat := 0x100d
def B3500000 : Nat := 0x100e
def B4000000 : Nat := 0x100f

/-- Index of the minimum-bytes cell in the control-character array. -/
def VMIN : Fin 32 := 6
/-- Index of the timeout cell in the control-character array. -/
def VTIME : Fin 32 := 5

/-- The `optional_actions` value `termios.TCSANOW`. -/
def TCSANOW : Nat := 0
/-- The value `termios.TCIOFLUSH`. -/
def TCIOFLUSH : Nat := 2

/-! ## Data model -/

/-- The record `syscall.Termios`. -/
structure Termios where
  Iflag : Nat
  Oflag : Nat
  Cflag : Nat
  Lflag : Nat
  Line : Nat
  Cc : Fin 32 → Nat
  Ispeed : Nat
  Ospeed : Nat

/-- The Go type `Parity byte`. -/
abbrev Parity := Nat

def ParityNone : Parity := 0
def ParityEven : Parity := 1
def ParityOdd : Parity := 2

/-- The Go type `StopBits byte`. -/
abbrev StopBits := Nat

def StopBits1 : StopBits := 0
def StopBits2 : StopBits := 1

/-- Config represents the rs232 configuration for the connection. -/
structure Config where
  Name : String
  BaudRate : Int
  Parity : Parity
  DataBits : Int
  StopBits : StopBits
  ReadTimeout : Int
  deriving DecidableEq, Repr

/-- The open device behind an `*os.File`: the attributes the terminal driver
currently holds, the non-blocking flag of the descriptor, and whether the
descriptor has been released. -/
structure File where
  attrs : Termios
  nonblock : Bool
  closed : Bool

/-- Rs232 represents the rs232 communication device. -/
structure Rs232 where
  config : Config
  fd : File
  orig : Termios

/-! ## Operating-system calls -/

/-- The call `termios.Tcgetattr`: reports `fail` when the driver fails, the
attributes of the device otherwise. -/
def Tcgetattr (fd : File) (fail : Option GoError) : Except GoError Termios :=
  match fail with
  | some err => Except.error err
  | none => Except.ok fd.attrs

/-- The call `termios.Tcsetattr`: when the driver fails the device keeps its
attributes and `fail` is reported, otherwise the device holds `attr`. -/
def Tcsetattr (fd : File) (_opt : Nat) (attr : Termios) (fail : Option GoError) :
    File × Option GoError :=
  match fail with
  | some err => (fd, some err)
  | none => ({ fd with attrs := attr }, none)

/-! ## The setters -/

def setParity (attr : Termios) (parity : Parity) : Termios :=
  if parity = ParityNone then
    { attr with Cflag := andNot attr.Cflag PARENB }
  else if parity = ParityEven then
    let attr := { attr with Cflag := attr.Cflag ||| PARENB }
    { attr with Cflag := andNot attr.Cflag PARODD }
  else if parity = ParityOdd then
    let attr := { attr with Cflag := attr.Cflag ||| PARENB }
    { attr with Cflag := attr.Cflag ||| PARODD }
  else attr

def setStopBits (attr : Termios) (stopbits : StopBits) : Termios :=
  if stopbits = StopBits1 then
    { attr with Cflag := andNot attr.Cflag CSTOPB }
  else if stopbits = StopBits2 then
    { attr with Cflag := attr.Cflag ||| CSTOPB }
  else attr

def setDataBits (attr : Termios) (databits : Int) : Termios :=
  let bits : Nat :=
    if databits = 5 then CS5
    else if databits = 6 then CS6
    else if databits = 7 then CS7
    else if databits = 8 then CS8
    else 0
  let attr := { attr with Cflag := andNot attr.Cflag CSIZE }
  { attr with Cflag := attr.Cflag ||| bits }

/-- The `switch` of `setBaudRate`: the symbolic rate selected for `baud`, or
`none` in the `default` case. -/
def baudSwitch (baud : Int) : Option Nat :=
  if baud = 50 then some B50
  else if baud = 75 then some B75
  else if baud = 110 then some B110
  else if baud = 134 then some B134
  else if baud = 150 then some B150
  else if baud = 200 then some B200
  else if baud = 300 then some B300
  else if baud = 600 then some B600
  else if baud = 1200 then some B1200
  else if baud = 1800 then some B1800
  else if baud = 2400 then some B2400
  else if baud = 4800 then some B4800
  else if baud = 9600 then some B9600
  else if baud = 19200 then some B19200
  else if baud = 38400 then some B38400
  else if baud = 57600 then some B57600
  else if baud = 115200 then some B115200
  else if baud = 230400 then some B230400
  else if baud = 460800 then some B460800
  else if baud = 500000 then some B500000
  else if baud = 576000 then some B576000
  else if baud = 921600 then some B921600
  else if baud = 1000000 then some B1000000
  else if baud = 1152000 then some B1152000
  else if baud = 1500000 then some B1500000
  else if baud = 2000000 then some B2000000
  else if baud = 2500000 then some B2500000
  else if baud = 3000000 then some B3000000
  else if baud = 3500000 then some B3500000
  else if baud = 4000000 then some B4000000
  else none

/-- The function `setBaudRate`: the record as the call leaves it, and the
error it returns. -/
def setBaudRate (attr : Termios) (baud : Int) : Termios × Option GoError :=
  match baudSwitch baud with
  | none => (attr, some EINVAL)
  | some rate =>
    let attr := { attr with Cflag := attr.Cflag ||| rate }
    let attr := { attr with Ispeed := rate }
    let attr := { attr with Ospeed := rate }
    (attr, none)

/-! ## Configure and Read -/

/-- Configure allows the communication configuration to be changed.
`getFail` and `setFail` are the outcomes of the two driver calls. -/
def Configure (s : Rs232) (cfg : Config) (getFail setFail : Option GoError) :
    Rs232 × Option GoError :=
  match Tcgetattr s.fd getFail with
  | Except.error err => (s, some err)
  | Except.ok attr =>
    -- Select raw mode
    let attr := { attr with Iflag := (andNot attr.Iflag
      (IGNBRK ||| BRKINT ||| PARMRK ||| INLCR ||| IGNCR ||| ICRNL ||| ISTRIP ||| IXON)) }
    let attr := { attr with Lflag := (andNot attr.Lflag
      (ECHO ||| ECHONL ||| ICANON ||| IEXTEN ||| ISIG)) }
    let attr := { attr with Oflag := andNot attr.Oflag OPOST }
    let attr := { attr with Cflag := andNot attr.Cflag CSIZE }
    -- the error returned by setBaudRate is not looked at
    let attr := (setBaudRate attr cfg.BaudRate).1
    let attr := setParity attr cfg.Parity
    let attr := setStopBits attr cfg.StopBits
    let attr := setDataBits attr cfg.DataBits
    let attr :=
      if s.config.ReadTimeout > 0 then
        let attr := { attr with Cc := Function.update attr.Cc VMIN 0 }
        { attr with Cc := Function.update attr.Cc VTIME (uint8 s.config.ReadTimeout) }
      else
        let attr := { attr with Cc := Function.update attr.Cc VMIN 1 }
        { attr with Cc := Function.update attr.Cc VTIME 0 }
    let s := { s with config := cfg }
    let r := Tcsetattr s.fd TCSANOW attr setFail
    ({ s with fd := r.1 }, r.2)

/-- Read reads up to `len(b)` bytes from the rs232 device. `n` and `err` are
what the underlying `s.fd.Read(b)` returned; the bytes themselves are placed
in `b` by that call. -/
def Read (s : Rs232) (b : List Nat) (n : Int) (err : Option GoError) :
    Int × Option GoError :=
  let n := if n < 0 then 0 else n
  if n = 0 ∧ b.length > 0 ∧ err = none then
    (0, some GoError.EOF)
  else if err = some GoError.EOF then
    (n, err)
  else
    match err with
    | some e => (n, some (GoError.PathError "read" s.config.Name e))
    | none => (n, none)

/-- A terminal record with every field zero. -/
def zeroTermios : Termios :=
  { Iflag := 0, Oflag := 0, Cflag := 0, Lflag := 0, Line := 0, Cc := fun _ => 0,
    Ispeed := 0, Ospeed := 0 }

/-- A line on a device whose attributes are all zero, storing the
configuration of the package's example program with a blocking read. -/
def line0 : Rs232 :=
  { config := { Name := "/dev/ttyUSB0", BaudRate := 38400, Parity := ParityNone,
                DataBits := 8, StopBits := StopBits1, ReadTimeout := 0 },
    fd := { attrs := zeroTermios, nonblock := false, closed := false },
    orig := zeroTermios }

/-- The fixed table of supported rates, each with its symbolic constant. -/
def baudTable : List (Int × Nat) :=
  [(50, B50), (75, B75), (110, B110), (134, B134), (150, B150), (200, B200),
   (300, B300), (600, B600), (1200, B1200), (1800, B1800), (2400, B2400),
   (4800, B4800), (9600, B9600), (19200, B19200), (38400, B38400),
   (57600, B57600), (115200, B115200), (230400, B230400), (460800, B460800),
   (500000, B500000), (576000, B576000), (921600, B921600),
   (1000000, B1000000), (1152000, B1152000), (1500000, B1500000),
   (2000000, B2000000), (2500000, B2500000), (3000000, B3000000),
   (3500000, B3500000), (4000000, B4000000)]

/-! ## Write, Restore, Flush, SendBreak, Close, Open -/

/-- Write data through serial communication device. `n` and `err` are what
the underlying `s.fd.Write(b)` returned. -/
def Write (s : Rs232) (b : List Nat) (n : Int) (err : Option GoError) :
    Int × Option GoError :=
  let n := if n < 0 then 0 else n
  if n ≠ b.length then
    (n, some GoError.ErrShortWrite)
  else
    match err with
    | some e => (n, some (GoError.PathError "write" s.config.Name e))
    | none => (n, none)

/-- Restore restores the state of the terminal captured at the point that
the terminal was originally opened. `fail` is the outcome of the driver call. -/
def Restore (s : Rs232) (fail : Option GoError) : Rs232 × Option GoError :=
  let r := Tcsetattr s.fd TCIOFLUSH s.orig fail
  ({ s with fd := r.1 }, r.2)

/-- Flush flushes both data received but not read, and data written but not
transmitted. The call `termios.Tcflush` reports `fail`; it changes no attribute. -/
def Flush (s : Rs232) (fail : Option GoError) : Rs232 × Option GoError :=
  (s, fail)

/-- SendBreak sends a break signal. The call `termios.Tcsendbreak` reports
`fail`; it changes no attribute. -/
def SendBreak (s : Rs232) (fail : Option GoError) : Rs232 × Option GoError :=
  (s, fail)

/-- The method `(*os.File).Close`: the descriptor is given up whatever the
call reports, and `fail` is reported. -/
def FileClose (fd : File) (fail : Option GoError) : File × Option GoError :=
  ({ fd with closed := true }, fail)

/-- Close closes the communication. `restoreFail` and `closeFail` are the
outcomes of the attribute commit inside `Restore` and of the file close. -/
def Close (s : Rs232) (restoreFail closeFail : Option GoError) : Rs232 × Option GoError :=
  -- try to restore the device
  let s := (Restore s restoreFail).1
  let r := FileClose s.fd closeFail
  ({ s with fd := r.1 }, r.2)

/-- The call `os.OpenFile` with `O_NOCTTY|O_RDWR|O_NONBLOCK`: `dev` is either
the error of the call or the attributes the named device holds; the new
descriptor is non-blocking. -/
def OpenFile (_name : String) (dev : Except GoError Termios) : Except GoError File :=
  match dev with
  | Except.error err => Except.error err
  | Except.ok attrs => Except.ok { attrs := attrs, nonblock := true, closed := false }

/-- The call `syscall.SetNonblock`. -/
def SetNonblock (fd : File) (nonblocking : Bool) (fail : Option GoError) :
    File × Option GoError :=
  match fail with
  | some err => (fd, some err)
  | none => ({ fd with nonblock := nonblocking }, none)

/-- Open opens an rs232 communication. `dev` is the outcome of opening the
device, `getFail` that of the first attribute read, `cfgGetFail` and
`cfgSetFail` those of the two driver calls of `Configure`, and `nbFail` that
of the switch to blocking mode. The result is the returned pointer (`none`
for `nil`) and the returned error. -/
def Open (cfg : Config) (dev : Except GoError Termios)
    (getFail cfgGetFail cfgSetFail nbFail : Option GoError) :
    Option Rs232 × Option GoError :=
  match OpenFile cfg.Name dev with
  | Except.error err => (none, some (GoError.PathError "open" cfg.Name err))
  | Except.ok fd =>
    let s : Rs232 := { config := cfg, fd := fd, orig := zeroTermios }
    match Tcgetattr s.fd getFail with
    | Except.error err => (none, some err)
    | Except.ok orig =>
      let s := { s with orig := orig }
      match Configure s cfg cfgGetFail cfgSetFail with
      | (_, some err) => (none, some err)
      | (s, none) =>
        match SetNonblock s.fd false nbFail with
        | (_, some err) => (none, some err)
        | (fd, none) => (some { s with fd := fd }, none)

/-! ## Auxiliary definitions for the proofs -/

/-- The size bits `setDataBits` selects for `databits`. -/
def sizeBits (databits : Int) : Nat :=
  if databits = 5 then CS5
  else if databits = 6 then CS6
  else if databits = 7 then CS7
  else if databits = 8 then CS8
  else 0

/-- The raw-mode step of `Configure`. -/
def rawAttr (attr : Termios) : Termios :=
  { attr with
    Iflag := andNot attr.Iflag
      (IGNBRK ||| BRKINT ||| PARMRK ||| INLCR ||| IGNCR ||| ICRNL ||| ISTRIP ||| IXON)
    Lflag := andNot attr.Lflag (ECHO ||| ECHONL ||| ICANON ||| IEXTEN ||| ISIG)
    Oflag := andNot attr.Oflag OPOST
    Cflag := andNot attr.Cflag CSIZE }

/-- The record after the four setter calls of `Configure`. -/
def lineAttr (attr : Termios) (cfg : Config) : Termios :=
  setDataBits (setStopBits (setParity (setBaudRate (rawAttr attr) cfg.BaudRate).1 cfg.Parity)
    cfg.StopBits) cfg.DataBits

/-- The timeout step of `Configure`, which reads the stored configuration. -/
def timeoutAttr (attr : Termios) (stored : Config) : Termios :=
  if stored.ReadTimeout > 0 then
    { attr with
      Cc := Function.update (Function.update attr.Cc VMIN 0) VTIME (uint8 stored.ReadTimeout) }
  else
    { attr with Cc := Function.update (Function.update attr.Cc VMIN 1) VTIME 0 }

/-- The line `line0` after a successful `Configure` at 38400 baud. -/
def line38400 : Rs232 :=
  (Configure line0 { line0.config with BaudRate := 38400 } none none).1

/-- One call on an open line after `Open`, with the outcomes of the
operating-system calls it makes. -/
inductive Call where
  | configure (cfg : Config) (getFail setFail : Option GoError)
  | read (b : List Nat) (n : Int) (err : Option GoError)
  | write (b : List Nat) (n : Int) (err : Option GoError)
  | flush (fail : Option GoError)
  | sendBreak (fail : Option GoError)

/-- The line after one call. `Read` and `Write` return a count and an error
and assign to no field of the line. -/
def Call.run (s : Rs232) : Call → Rs232
  | Call.configure cfg getFail setFail => (Configure s cfg getFail setFail).1
  | Call.read _ _ _ => s
  | Call.write _ _ _ => s
  | Call.flush fail => (Flush s fail).1
  | Call.sendBreak fail => (SendBreak s fail).1

/-- The line after a sequence of calls, first call first. -/
def runCalls (s : Rs232) (calls : List Call) : Rs232 :=
  calls.foldl Call.run s

/-- The line a successful `Open` returns for configuration `cfg` on a device
holding `attrs`. -/
def openedLine (cfg : Config) (attrs : Termios) : Rs232 :=
  { config := cfg, orig := attrs,
    fd := { attrs := timeoutAttr (lineAttr attrs cfg) cfg, nonblock := false, closed := false } }

/-- The input flags that `Configure` clears. -/
def rawIflagMask : Nat :=
  IGNBRK ||| BRKINT ||| PARMRK ||| INLCR ||| IGNCR ||| ICRNL ||| ISTRIP ||| IXON

/-- The local flags that `Configure` clears. -/
def rawLflagMask : Nat :=
  ECHO ||| ECHONL ||| ICANON ||| IEXTEN ||| ISIG

/-- One of the four setter calls of `Configure`, with its argument. -/
inductive Setter where
  | baud (baud : Int)
  | parity (parity : Parity)
  | stopBits (stopbits : StopBits)
  | dataBits (databits : Int)
  deriving DecidableEq

/-- The record after one setter call (for `setBaudRate`, the record it
leaves behind, whatever it returns). -/
def Setter.run (attr : Termios) : Setter → Termios
  | Setter.baud b => (setBaudRate attr b).1
  | Setter.parity p => setParity attr p
  | Setter.stopBits sb => setStopBits attr sb
  | Setter.dataBits d => setDataBits attr d

/-- The record after a sequence of setter calls, first call first. -/
def applySetters (attr : Termios) (calls : List Setter) : Termios :=
  calls.foldl Setter.run attr

/-- The field of the control flags that belongs to a setter. -/
def Setter.mask : Setter → Nat
  | Setter.baud _ => CBAUD
  | Setter.parity _ => PARENB ||| PARODD
  | Setter.stopBits _ => CSTOPB
  | Setter.dataBits _ => CSIZE

/-- A record update that clears the bits `clr` of the control flags, then
sets the bits `set`, and stores `speed`, when there is one, as both speeds. -/
def fieldUpdate (clr set : Nat) (speed : Option Nat) (attr : Termios) : Termios :=
  { attr with
    Cflag := andNot attr.Cflag clr ||| set
    Ispeed := speed.getD attr.Ispeed
    Ospeed := speed.getD attr.Ospeed }

/-! ## Bit-level lemmas -/

theorem andNot_and_self (a m : Nat) : andNot a m &&& m = 0 := by
  apply Nat.eq_of_testBit_eq
  intro i
  simp only [andNot, Nat.testBit_and, Nat.testBit_xor, Nat.zero_testBit]
  cases a.testBit i <;> cases m.testBit i <;> rfl

theorem or_and_self (a m : Nat) : (a ||| m) &&& m = m := by
  apply Nat.eq_of_testBit_eq
  intro i
  simp only [Nat.testBit_and, Nat.testBit_or]
  cases a.testBit i <;> cases m.testBit i <;> rfl

theorem testBit_disjoint {m k : Nat} (h : m &&& k = 0) (i : Nat) :
    (m.testBit i && k.testBit i) = false := by
  rw [← Nat.testBit_and, h, Nat.zero_testBit]

theorem andNot_and_of_disjoint (a : Nat) {m k : Nat} (h : m &&& k = 0) :
    andNot a m &&& k = a &&& k := by
  apply Nat.eq_of_testBit_eq
  intro i
  have hi := testBit_disjoint h i
  simp only [andNot, Nat.testBit_and, Nat.testBit_xor]
  revert hi
  cases a.testBit i <;> cases m.testBit i <;> cases k.testBit i <;> simp

theorem or_and_of_disjoint (a : Nat) {m k : Nat} (h : m &&& k = 0) :
    (a ||| m) &&& k = a &&& k := by
  apply Nat.eq_of_testBit_eq
  intro i
  have hi := testBit_disjoint h i
  simp only [Nat.testBit_and, Nat.testBit_or]
  revert hi
  cases a.testBit i <;> cases m.testBit i <;> cases k.testBit i <;> simp

theorem andNot_or_and (a : Nat) {b m : Nat} (hb : b &&& m = b) :
    (andNot a m ||| b) &&& m = b := by
  apply Nat.eq_of_testBit_eq
  intro i
  have hbi : (b.testBit i && m.testBit i) = b.testBit i := by
    rw [← Nat.testBit_and, hb]
  simp only [andNot, Nat.testBit_and, Nat.testBit_or, Nat.testBit_xor]
  revert hbi
  cases a.testBit i <;> cases b.testBit i <;> cases m.testBit i <;> simp

theorem andNot_andNot (a m : Nat) : andNot (andNot a m) m = andNot a m := by
  apply Nat.eq_of_testBit_eq
  intro i
  simp only [andNot, Nat.testBit_and, Nat.testBit_xor]
  cases a.testBit i <;> cases m.testBit i <;> rfl

theorem andNot_or_self (a m : Nat) : andNot (a ||| m) m = andNot a m := by
  apply Nat.eq_of_testBit_eq
  intro i
  simp only [andNot, Nat.testBit_and, Nat.testBit_or, Nat.testBit_xor]
  cases a.testBit i <;> cases m.testBit i <;> rfl

/-- A word `r` inside mask `m` is disjoint from whatever `m` is disjoint from. -/
theorem disjoint_of_sub {r m k : Nat} (hr : r &&& m = r) (h : m &&& k = 0) :
    r &&& k = 0 := by
  apply Nat.eq_of_testBit_eq
  intro i
  have hi := testBit_disjoint h i
  have hri : (r.testBit i && m.testBit i) = r.testBit i := by
    rw [← Nat.testBit_and, hr]
  simp only [Nat.testBit_and, Nat.zero_testBit]
  revert hi hri
  cases r.testBit i <;> cases m.testBit i <;> cases k.testBit i <;> simp

/-- Whatever the switch selects is an entry of the fixed table. -/
theorem mem_of_baudSwitch {baud : Int} {rate : Nat} (h : baudSwitch baud = some rate) :
    (baud, rate) ∈ baudTable := by
  unfold baudSwitch at h
  by_cases hc : baud = 50
  · rw [if_pos hc] at h; cases h; subst hc; decide
  rw [if_neg hc] at h; clear hc
  by_cases hc : baud = 75
  · rw [if_pos hc] at h; cases h; subst hc; decide
  rw [if_neg hc] at h; clear hc
  by_cases hc : baud = 110
  · rw [if_pos hc] at h; cases h; subst hc; decide
  rw [if_neg hc] at h; clear hc
  by_cases hc : baud = 134
  · rw [if_pos hc] at h; cases h; subst hc; decide
  rw [if_neg hc] at h; clear hc
  by_cases hc : baud = 150
  · rw [if_pos hc] at h; cases h; subst hc; decide
  rw [if_neg hc] at h; clear hc
  by_cases hc : baud = 200
  · rw [if_pos hc] at h; cases h; subst hc; decide
  rw [if_neg hc] at h; clear hc
  by_cases hc : baud = 300
  · rw [if_pos hc] at h; cases h; subst hc; decide
  rw [if_neg hc] at h; clear hc
  by_cases hc : baud = 600
  · rw [if_pos hc] at h; cases h; subst hc; decide
  rw [if_neg hc] at h; clear hc
  by_cases hc : baud = 1200
  · rw [if_pos hc] at h; cases h; subst hc; decide
  rw [if_neg hc] at h; clear hc
  by_cases hc : baud = 1800
  · rw [if_pos hc] at h; cases h; subst hc; decide
  rw [if_neg hc] at h; clear hc
  by_cases hc : baud = 2400
  · rw [if_pos hc] at h; cases h; subst hc; decide
  rw [if_neg hc] at h; clear hc
  by_cases hc : baud = 4800
  · rw [if_pos hc] at h; cases h; subst hc; decide
  rw [if_neg hc] at h; clear hc
  by_cases hc : baud = 9600
  · rw [if_pos hc] at h; cases h; subst hc; decide
  rw [if_neg hc] at h; clear hc
  by_cases hc : baud = 19200
  · rw [if_pos hc] at h; cases h; subst hc; decide
  rw [if_neg hc] at h; clear hc
  by_cases hc : baud = 38400
  · rw [if_pos hc] at h; cases h; subst hc; decide
  rw [if_neg hc] at h; clear hc
  by_cases hc : baud = 57600
  · rw [if_pos hc] at h; cases h; subst hc; decide
  rw [if_neg hc] at h; clear hc
  by_cases hc : baud = 115200
  · rw [if_pos hc] at h; cases h; subst hc; decide
  rw [if_neg hc] at h; clear hc
  by_cases hc : baud = 230400
  · rw [if_pos hc] at h; cases h; subst hc; decide
  rw [if_neg hc] at h; clear hc
  by_cases hc : baud = 460800
  · rw [if_pos hc] at h; cases h; subst hc; decide
  rw [if_neg hc] at h; clear hc
  by_cases hc : baud = 500000
  · rw [if_pos hc] at h; cases h; subst hc; decide
  rw [if_neg hc] at h; clear hc
  by_cases hc : baud = 576000
  · rw [if_pos hc] at h; cases h; subst hc; decide
  rw [if_neg hc] at h; clear hc
  by_cases hc : baud = 921600
  · rw [if_pos hc] at h; cases h; subst hc; decide
  rw [if_neg hc] at h; clear hc
  by_cases hc : baud = 1000000
  · rw [if_pos hc] at h; cases h; subst hc; decide
  rw [if_neg hc] at h; clear hc
  by_cases hc : baud = 1152000
  · rw [if_pos hc] at h; cases h; subst hc; decide
  rw [if_neg hc] at h; clear hc
  by_cases hc : baud = 1500000
  · rw [if_pos hc] at h; cases h; subst hc; decide
  rw [if_neg hc] at h; clear hc
  by_cases hc : baud = 2000000
  · rw [if_pos hc] at h; cases h; subst hc; decide
  rw [if_neg hc] at h; clear hc
  by_cases hc : baud = 2500000
  · rw [if_pos hc] at h; cases h; subst hc; decide
  rw [if_neg hc] at h; clear hc
  by_cases hc : baud = 3000000
  · rw [if_pos hc] at h; cases h; subst hc; decide
  rw [if_neg hc] at h; clear hc
  by_cases hc : baud = 3500000
  · rw [if_pos hc] at h; cases h; subst hc; decide
  rw [if_neg hc] at h; clear hc
  by_cases hc : baud = 4000000
  · rw [if_pos hc] at h; cases h; subst hc; decide
  rw [if_neg hc] at h; clear hc
  cases h

theorem baudSwitch_of_mem {baud : Int} {rate : Nat} (h : (baud, rate) ∈ baudTable) :
    baudSwitch baud = some rate := by
  have key : ∀ p ∈ baudTable, baudSwitch p.1 = some p.2 := by decide
  exact key (baud, rate) h

theorem baudSwitch_of_not_mem {baud : Int} (h : baud ∉ baudTable.map Prod.fst) :
    baudSwitch baud = none := by
  cases hb : baudSwitch baud with
  | none => rfl
  | some rate => exact absurd (List.mem_map_of_mem Prod.fst (mem_of_baudSwitch hb)) h

/-- Every rate the switch selects lies inside the baud field `CBAUD`. -/
theorem baudSwitch_sub {baud : Int} {rate : Nat} (h : baudSwitch baud = some rate) :
    rate &&& CBAUD = rate := by
  have key : ∀ p ∈ baudTable, p.2 &&& CBAUD = p.2 := by decide
  exact key (baud, rate) (mem_of_baudSwitch h)

theorem setBaudRate_Cflag_and (attr : Termios) (baud : Int) {k : Nat} (h : CBAUD &&& k = 0) :
    (setBaudRate attr baud).1.Cflag &&& k = attr.Cflag &&& k := by
  unfold setBaudRate
  cases hb : baudSwitch baud with
  | none => rfl
  | some rate => exact or_and_of_disjoint attr.Cflag (disjoint_of_sub (baudSwitch_sub hb) h)

theorem setParity_Cflag_and (attr : Termios) (parity : Parity) {k : Nat}
    (h1 : PARENB &&& k = 0) (h2 : PARODD &&& k = 0) :
    (setParity attr parity).Cflag &&& k = attr.Cflag &&& k := by
  unfold setParity
  split_ifs
  · exact andNot_and_of_disjoint attr.Cflag h1
  · show andNot (attr.Cflag ||| PARENB) PARODD &&& k = attr.Cflag &&& k
    rw [andNot_and_of_disjoint _ h2, or_and_of_disjoint _ h1]
  · show ((attr.Cflag ||| PARENB) ||| PARODD) &&& k = attr.Cflag &&& k
    rw [or_and_of_disjoint _ h2, or_and_of_disjoint _ h1]
  · rfl

theorem setStopBits_Cflag_and (attr : Termios) (stopbits : StopBits) {k : Nat}
    (h : CSTOPB &&& k = 0) :
    (setStopBits attr stopbits).Cflag &&& k = attr.Cflag &&& k := by
  unfold setStopBits
  split_ifs
  · exact andNot_and_of_disjoint attr.Cflag h
  · exact or_and_of_disjoint attr.Cflag h
  · rfl

theorem setDataBits_Cflag (attr : Termios) (databits : Int) :
    (setDataBits attr databits).Cflag = andNot attr.Cflag CSIZE ||| sizeBits databits := rfl

theorem sizeBits_sub (databits : Int) : sizeBits databits &&& CSIZE = sizeBits databits := by
  unfold sizeBits
  split_ifs <;> decide

theorem setDataBits_Cflag_and (attr : Termios) (databits : Int) {k : Nat}
    (h : CSIZE &&& k = 0) :
    (setDataBits attr databits).Cflag &&& k = attr.Cflag &&& k := by
  rw [setDataBits_Cflag, or_and_of_disjoint _ (disjoint_of_sub (sizeBits_sub databits) h),
    andNot_and_of_disjoint _ h]

/-! ## Lemmas on Configure -/

theorem Configure_getFail (s : Rs232) (cfg : Config) (err : GoError) (setFail : Option GoError) :
    Configure s cfg (some err) setFail = (s, some err) := rfl

theorem Configure_setFail (s : Rs232) (cfg : Config) (err : GoError) :
    Configure s cfg none (some err) = ({ s with config := cfg }, some err) := rfl

theorem Configure_ok (s : Rs232) (cfg : Config) :
    Configure s cfg none none =
      ({ config := cfg, orig := s.orig,
         fd := { s.fd with attrs := timeoutAttr (lineAttr s.fd.attrs cfg) s.config } }, none) := by
  unfold Configure Tcgetattr Tcsetattr timeoutAttr lineAttr rawAttr
  simp only

theorem timeoutAttr_Cflag (attr : Termios) (stored : Config) :
    (timeoutAttr attr stored).Cflag = attr.Cflag := by
  unfold timeoutAttr; split_ifs <;> rfl

theorem Configure_Cflag (s : Rs232) (cfg : Config) :
    (Configure s cfg none none).1.fd.attrs.Cflag = (lineAttr s.fd.attrs cfg).Cflag := by
  rw [Configure_ok]; exact timeoutAttr_Cflag _ _

theorem Configure_ok_error (s : Rs232) (cfg : Config) :
    (Configure s cfg none none).2 = none := by
  rw [Configure_ok]

theorem setBaudRate_of_switch {attr : Termios} {baud : Int} {rate : Nat}
    (h : baudSwitch baud = some rate) :
    setBaudRate attr baud =
      ({ attr with Cflag := attr.Cflag ||| rate, Ispeed := rate, Ospeed := rate }, none) := by
  unfold setBaudRate
  rw [h]

theorem setBaudRate_of_default {attr : Termios} {baud : Int} (h : baudSwitch baud = none) :
    setBaudRate attr baud = (attr, some EINVAL) := by
  unfold setBaudRate
  rw [h]

/-! ## Baud rate (C1, C2, C3) -/

/-- C1, evaluated on the code: 12345 is not a rate of the table and `setBaudRate`
reports `EINVAL` for it, yet `Configure` with that rate returns no error when
both driver calls succeed, and the line stores the rejected rate. -/
theorem Configure_unlisted_baud_returns_nil :
    (12345 : Int) ∉ baudTable.map Prod.fst ∧
    (setBaudRate (rawAttr line0.fd.attrs) 12345).2 = some EINVAL ∧
    (Configure line0 { line0.config with BaudRate := 12345 } none none).2 = none ∧
    (Configure line0 { line0.config with BaudRate := 12345 } none none).1.config.BaudRate
      = 12345 := by
  refine ⟨by decide, by decide, by decide, by decide⟩

/-- C2: for every entry of the fixed table and every attribute record,
`setBaudRate` returns no error and leaves both `Ispeed` and `Ospeed` equal to
the symbolic constant of the rate; for every value outside the table it
returns `EINVAL`. -/
theorem setBaudRate_table (attr : Termios) (baud : Int) :
    (∀ rate, (baud, rate) ∈ baudTable →
      (setBaudRate attr baud).2 = none ∧
      (setBaudRate attr baud).1.Ispeed = rate ∧
      (setBaudRate attr baud).1.Ospeed = rate) ∧
    (baud ∉ baudTable.map Prod.fst → (setBaudRate attr baud).2 = some EINVAL) := by
  constructor
  · intro rate h
    rw [setBaudRate_of_switch (baudSwitch_of_mem h)]
    exact ⟨rfl, rfl, rfl⟩
  · intro h
    rw [setBaudRate_of_default (baudSwitch_of_not_mem h)]

/-- C2 at 38400 baud (inside the table) and at 12345 (outside it). -/
theorem setBaudRate_table_witness :
    ((setBaudRate zeroTermios 38400).2 = none ∧
      (setBaudRate zeroTermios 38400).1.Ispeed = B38400 ∧
      (setBaudRate zeroTermios 38400).1.Ospeed = B38400) ∧
    (setBaudRate zeroTermios 12345).2 = some EINVAL :=
  ⟨(setBaudRate_table zeroTermios 38400).1 B38400 (by decide),
   (setBaudRate_table zeroTermios 12345).2 (by decide)⟩

/-- C3, evaluated on the code: on a device left at 38400 baud by an earlier
successful `Configure`, a successful `Configure` at 9600 baud commits `Ispeed`
and `Ospeed` of 9600 but a baud field `Cflag & CBAUD` that is still `B38400`,
because `setBaudRate` ors the rate into a field it has not cleared. -/
theorem Configure_baud_field_keeps_old_rate :
    (line38400.fd.attrs.Cflag &&& CBAUD = B38400) ∧
    (Configure line38400 { line0.config with BaudRate := 9600 } none none).2 = none ∧
    (Configure line38400 { line0.config with BaudRate := 9600 } none none).1.fd.attrs.Cflag
      &&& CBAUD = B38400 ∧
    (Configure line38400 { line0.config with BaudRate := 9600 } none none).1.fd.attrs.Cflag
      &&& CBAUD ≠ B9600 ∧
    (Configure line38400 { line0.config with BaudRate := 9600 } none none).1.fd.attrs.Ispeed
      = B9600 ∧
    (Configure line38400 { line0.config with BaudRate := 9600 } none none).1.fd.attrs.Ospeed
      = B9600 := by
  refine ⟨by decide, by decide, by decide, by decide, by decide, by decide⟩

/-! ## Parity, character size, stop bits (C4, C5, C6) -/

theorem lineAttr_Cflag_and_parity (attr : Termios) (cfg : Config) {k : Nat}
    (h1 : CSIZE &&& k = 0) (h2 : CSTOPB &&& k = 0) :
    (lineAttr attr cfg).Cflag &&& k =
      (setParity (setBaudRate (rawAttr attr) cfg.BaudRate).1 cfg.Parity).Cflag &&& k := by
  unfold lineAttr
  rw [setDataBits_Cflag_and _ _ h1, setStopBits_Cflag_and _ _ h2]

theorem setParity_none (attr : Termios) : (setParity attr ParityNone).Cflag &&& PARENB = 0 :=
  andNot_and_self attr.Cflag PARENB

theorem setParity_even (attr : Termios) :
    (setParity attr ParityEven).Cflag &&& PARENB = PARENB ∧
    (setParity attr ParityEven).Cflag &&& PARODD = 0 := by
  constructor
  · show andNot (attr.Cflag ||| PARENB) PARODD &&& PARENB = PARENB
    rw [andNot_and_of_disjoint _ (by decide), or_and_self]
  · exact andNot_and_self _ PARODD

theorem setParity_odd (attr : Termios) :
    (setParity attr ParityOdd).Cflag &&& PARENB = PARENB ∧
    (setParity attr ParityOdd).Cflag &&& PARODD = PARODD := by
  constructor
  · show ((attr.Cflag ||| PARENB) ||| PARODD) &&& PARENB = PARENB
    rw [or_and_of_disjoint _ (by decide), or_and_self]
  · exact or_and_self _ PARODD

/-- C4: the attributes committed by `Configure` have `PARENB` clear when
`Parity` is `ParityNone`, `PARENB` set and `PARODD` clear when it is
`ParityEven`, and both set when it is `ParityOdd`; and none of `setStopBits`,
`setDataBits`, `setBaudRate` changes the bits `PARENB` and `PARODD` of the
record it is applied to. -/
theorem Configure_parity_bits (s : Rs232) (cfg : Config) :
    (cfg.Parity = ParityNone →
      (Configure s cfg none none).1.fd.attrs.Cflag &&& PARENB = 0) ∧
    (cfg.Parity = ParityEven →
      (Configure s cfg none none).1.fd.attrs.Cflag &&& PARENB = PARENB ∧
      (Configure s cfg none none).1.fd.attrs.Cflag &&& PARODD = 0) ∧
    (cfg.Parity = ParityOdd →
      (Configure s cfg none none).1.fd.attrs.Cflag &&& PARENB = PARENB ∧
      (Configure s cfg none none).1.fd.attrs.Cflag &&& PARODD = PARODD) ∧
    (∀ attr : Termios,
      (setStopBits attr cfg.StopBits).Cflag &&& (PARENB ||| PARODD)
        = attr.Cflag &&& (PARENB ||| PARODD) ∧
      (setDataBits attr cfg.DataBits).Cflag &&& (PARENB ||| PARODD)
        = attr.Cflag &&& (PARENB ||| PARODD) ∧
      (setBaudRate attr cfg.BaudRate).1.Cflag &&& (PARENB ||| PARODD)
        = attr.Cflag &&& (PARENB ||| PARODD)) := by
  have hE : (Configure s cfg none none).1.fd.attrs.Cflag &&& PARENB =
      (setParity (setBaudRate (rawAttr s.fd.attrs) cfg.BaudRate).1 cfg.Parity).Cflag
        &&& PARENB := by
    rw [Configure_Cflag, lineAttr_Cflag_and_parity _ _ (by decide) (by decide)]
  have hO : (Configure s cfg none none).1.fd.attrs.Cflag &&& PARODD =
      (setParity (setBaudRate (rawAttr s.fd.attrs) cfg.BaudRate).1 cfg.Parity).Cflag
        &&& PARODD := by
    rw [Configure_Cflag, lineAttr_Cflag_and_parity _ _ (by decide) (by decide)]
  refine ⟨fun h => ?_, fun h => ?_, fun h => ?_, fun attr => ⟨?_, ?_, ?_⟩⟩
  · rw [hE, h]; exact setParity_none _
  · rw [hE, hO, h]; exact setParity_even _
  · rw [hE, hO, h]; exact setParity_odd _
  · exact setStopBits_Cflag_and _ _ (by decide)
  · exact setDataBits_Cflag_and _ _ (by decide)
  · exact setBaudRate_Cflag_and _ _ (by decide)

/-- C4 on the line `line0`, for each of the three parities. -/
theorem Configure_parity_bits_witness :
    (Configure line0 { line0.config with Parity := ParityNone } none none).1.fd.attrs.Cflag
      &&& PARENB = 0 ∧
    ((Configure line0 { line0.config with Parity := ParityEven } none none).1.fd.attrs.Cflag
      &&& PARENB = PARENB ∧
     (Configure line0 { line0.config with Parity := ParityEven } none none).1.fd.attrs.Cflag
      &&& PARODD = 0) ∧
    ((Configure line0 { line0.config with Parity := ParityOdd } none none).1.fd.attrs.Cflag
      &&& PARENB = PARENB ∧
     (Configure line0 { line0.config with Parity := ParityOdd } none none).1.fd.attrs.Cflag
      &&& PARODD = PARODD) :=
  ⟨(Configure_parity_bits line0 { line0.config with Parity := ParityNone }).1 rfl,
   (Configure_parity_bits line0 { line0.config with Parity := ParityEven }).2.1 rfl,
   (Configure_parity_bits line0 { line0.config with Parity := ParityOdd }).2.2.1 rfl⟩

theorem lineAttr_Cflag_and_size (attr : Termios) (cfg : Config) :
    (lineAttr attr cfg).Cflag &&& CSIZE = sizeBits cfg.DataBits := by
  unfold lineAttr
  rw [setDataBits_Cflag]
  exact andNot_or_and _ (sizeBits_sub _)

/-- C5: the character-size field `Cflag & CSIZE` committed by `Configure` is
`CS5`, `CS6`, `CS7`, `CS8` for `DataBits` 5, 6, 7, 8 and zero for every other
`DataBits`; `Configure` returns no error in either case, its result does not
depend on `DataBits` whatever the driver calls report. -/
theorem Configure_char_size (s : Rs232) (cfg : Config) :
    (cfg.DataBits = 5 → (Configure s cfg none none).1.fd.attrs.Cflag &&& CSIZE = CS5) ∧
    (cfg.DataBits = 6 → (Configure s cfg none none).1.fd.attrs.Cflag &&& CSIZE = CS6) ∧
    (cfg.DataBits = 7 → (Configure s cfg none none).1.fd.attrs.Cflag &&& CSIZE = CS7) ∧
    (cfg.DataBits = 8 → (Configure s cfg none none).1.fd.attrs.Cflag &&& CSIZE = CS8) ∧
    ((cfg.DataBits < 5 ∨ 8 < cfg.DataBits) →
      (Configure s cfg none none).1.fd.attrs.Cflag &&& CSIZE = 0) ∧
    (Configure s cfg none none).2 = none ∧
    (∀ (d : Int) (getFail setFail : Option GoError),
      (Configure s { cfg with DataBits := d } getFail setFail).2
        = (Configure s cfg getFail setFail).2) := by
  have hC : (Configure s cfg none none).1.fd.attrs.Cflag &&& CSIZE = sizeBits cfg.DataBits := by
    rw [Configure_Cflag, lineAttr_Cflag_and_size]
  refine ⟨fun h => ?_, fun h => ?_, fun h => ?_, fun h => ?_, fun h => ?_,
    Configure_ok_error s cfg, fun d getFail setFail => ?_⟩
  · rw [hC, h]; rfl
  · rw [hC, h]; rfl
  · rw [hC, h]; rfl
  · rw [hC, h]; rfl
  · rw [hC]
    unfold sizeBits
    rw [if_neg (by omega), if_neg (by omega), if_neg (by omega), if_neg (by omega)]
  · cases getFail with
    | some e => rfl
    | none =>
      cases setFail with
      | some e => rfl
      | none => rw [Configure_ok_error, Configure_ok_error]

/-- C5 on the line `line0`, for the data-bit counts 5, 6, 7, 8 and 9. -/
theorem Configure_char_size_witness :
    (Configure line0 { line0.config with DataBits := 5 } none none).1.fd.attrs.Cflag
      &&& CSIZE = CS5 ∧
    (Configure line0 { line0.config with DataBits := 6 } none none).1.fd.attrs.Cflag
      &&& CSIZE = CS6 ∧
    (Configure line0 { line0.config with DataBits := 7 } none none).1.fd.attrs.Cflag
      &&& CSIZE = CS7 ∧
    (Configure line0 { line0.config with DataBits := 8 } none none).1.fd.attrs.Cflag
      &&& CSIZE = CS8 ∧
    (Configure line0 { line0.config with DataBits := 9 } none none).1.fd.attrs.Cflag
      &&& CSIZE = 0 :=
  ⟨(Configure_char_size line0 { line0.config with DataBits := 5 }).1 rfl,
   (Configure_char_size line0 { line0.config with DataBits := 6 }).2.1 rfl,
   (Configure_char_size line0 { line0.config with DataBits := 7 }).2.2.1 rfl,
   (Configure_char_size line0 { line0.config with DataBits := 8 }).2.2.2.1 rfl,
   (Configure_char_size line0 { line0.config with DataBits := 9 }).2.2.2.2.1
     (Or.inr (by decide))⟩

theorem lineAttr_Cflag_and_stop (attr : Termios) (cfg : Config) :
    (lineAttr attr cfg).Cflag &&& CSTOPB =
      (setStopBits (setParity (setBaudRate (rawAttr attr) cfg.BaudRate).1 cfg.Parity)
        cfg.StopBits).Cflag &&& CSTOPB := by
  unfold lineAttr
  rw [setDataBits_Cflag_and _ _ (by decide)]

/-- C6: the attributes committed by `Configure` have `CSTOPB` clear when
`StopBits` is `StopBits1` and set when it is `StopBits2`; `setStopBits` leaves
every bit of the control flags outside `CSTOPB` as it found it. -/
theorem Configure_stop_bits (s : Rs232) (cfg : Config) :
    (cfg.StopBits = StopBits1 →
      (Configure s cfg none none).1.fd.attrs.Cflag &&& CSTOPB = 0) ∧
    (cfg.StopBits = StopBits2 →
      (Configure s cfg none none).1.fd.attrs.Cflag &&& CSTOPB = CSTOPB) ∧
    (∀ (attr : Termios) (i : Nat), i ≠ 6 →
      (setStopBits attr cfg.StopBits).Cflag.testBit i = attr.Cflag.testBit i) := by
  refine ⟨fun h => ?_, fun h => ?_, fun attr i hi => ?_⟩
  · rw [Configure_Cflag, lineAttr_Cflag_and_stop, h]
    exact andNot_and_self _ CSTOPB
  · rw [Configure_Cflag, lineAttr_Cflag_and_stop, h]
    exact or_and_self _ CSTOPB
  · have h6 : CSTOPB.testBit i = false := by
      have : CSTOPB = 2 ^ 6 := by decide
      rw [this, Nat.testBit_two_pow]
      exact decide_eq_false (fun h => hi h.symm)
    unfold setStopBits
    split_ifs
    · show (andNot attr.Cflag CSTOPB).testBit i = attr.Cflag.testBit i
      simp only [andNot, Nat.testBit_xor, Nat.testBit_and, h6]
      cases attr.Cflag.testBit i <;> rfl
    · show (attr.Cflag ||| CSTOPB).testBit i = attr.Cflag.testBit i
      simp only [Nat.testBit_or, h6]
      cases attr.Cflag.testBit i <;> rfl
    · rfl

/-- C6 on the line `line0`, for one and two stop bits and for bit 8 of a
record whose control flags are `0x1ff`. -/
theorem Configure_stop_bits_witness :
    (Configure line0 { line0.config with StopBits := StopBits1 } none none).1.fd.attrs.Cflag
      &&& CSTOPB = 0 ∧
    (Configure line0 { line0.config with StopBits := StopBits2 } none none).1.fd.attrs.Cflag
      &&& CSTOPB = CSTOPB ∧
    (setStopBits { zeroTermios with Cflag := 0x1ff } StopBits1).Cflag.testBit 8
      = (0x1ff : Nat).testBit 8 :=
  ⟨(Configure_stop_bits line0 { line0.config with StopBits := StopBits1 }).1 rfl,
   (Configure_stop_bits line0 { line0.config with StopBits := StopBits2 }).2.1 rfl,
   (Configure_stop_bits line0 { line0.config with StopBits := StopBits1 }).2.2
     { zeroTermios with Cflag := 0x1ff } 8 (by decide)⟩

/-! ## Read timeout and stored configuration (C7, C8) -/

/-- C7, evaluated on the code: the line `line0` stores `ReadTimeout = 0`;
`Configure` with `ReadTimeout = 10` commits `VMIN = 1`, `VTIME = 0`, the
blocking policy of the stored configuration, not `VMIN = 0`, `VTIME = 10`.
A second `Configure`, now with `ReadTimeout = 0`, commits `VMIN = 0`,
`VTIME = 10`, the timeout of the call before. -/
theorem Configure_timeout_from_stored_config :
    line0.config.ReadTimeout = 0 ∧
    (Configure line0 { line0.config with ReadTimeout := 10 } none none).2 = none ∧
    (Configure line0 { line0.config with ReadTimeout := 10 } none none).1.fd.attrs.Cc VMIN
      = 1 ∧
    (Configure line0 { line0.config with ReadTimeout := 10 } none none).1.fd.attrs.Cc VTIME
      = 0 ∧
    (Configure (Configure line0 { line0.config with ReadTimeout := 10 } none none).1
      { line0.config with ReadTimeout := 0 } none none).1.fd.attrs.Cc VMIN = 0 ∧
    (Configure (Configure line0 { line0.config with ReadTimeout := 10 } none none).1
      { line0.config with ReadTimeout := 0 } none none).1.fd.attrs.Cc VTIME = 10 := by
  refine ⟨by decide, by decide, by decide, by decide, by decide, by decide⟩

/-- C8, evaluated on the code: when the attribute read succeeds and the final
commit fails with errno 5, `Configure` returns that error and the line stores
the new configuration, which differs from the one stored before the call;
when the attribute read fails the stored configuration is kept. -/
theorem Configure_commit_failure_replaces_config :
    (Configure line0 { line0.config with BaudRate := 9600 } none
      (some (GoError.errno 5))).2 = some (GoError.errno 5) ∧
    (Configure line0 { line0.config with BaudRate := 9600 } none
      (some (GoError.errno 5))).1.config = { line0.config with BaudRate := 9600 } ∧
    (Configure line0 { line0.config with BaudRate := 9600 } none
      (some (GoError.errno 5))).1.config ≠ line0.config ∧
    (Configure line0 { line0.config with BaudRate := 9600 } (some (GoError.errno 5))
      none).1.config = line0.config := by
  refine ⟨rfl, rfl, ?_, rfl⟩
  intro h
  have hb := congrArg Config.BaudRate h
  exact absurd hb (by decide)

/-! ## Read (C9, C10) -/

/-- C9: for every non-empty buffer, when the underlying read reports a count
of zero or less and no error, `Read` returns the count 0 with `io.EOF`; and
for every buffer and every underlying result the count `Read` returns is not
negative. -/
theorem Read_timeout_and_count (s : Rs232) (b : List Nat) (n : Int)
    (err : Option GoError) :
    (0 < b.length → n ≤ 0 → Read s b n none = (0, some GoError.EOF)) ∧
    0 ≤ (Read s b n err).1 := by
  constructor
  · intro hb hn
    unfold Read
    have h0 : (if n < 0 then 0 else n) = 0 := by split_ifs <;> omega
    simp only [h0]
    rw [if_pos ⟨trivial, hb, trivial⟩]
  · unfold Read
    have h0 : (0 : Int) ≤ (if n < 0 then 0 else n) := by split_ifs <;> omega
    simp only
    generalize (if n < 0 then (0 : Int) else n) = m at h0 ⊢
    split_ifs
    · exact le_refl 0
    · exact h0
    · cases err with
      | none => exact h0
      | some e => exact h0

/-- C9 on a one-byte buffer with underlying count -1 and no error. -/
theorem Read_timeout_and_count_witness :
    Read line0 [0] (-1) none = (0, some GoError.EOF) :=
  (Read_timeout_and_count line0 [0] (-1) none).1 (by decide) (by decide)

/-- C10 as stated fails: when the underlying read reports `io.EOF` (here with
count 3 on a four-byte buffer) `Read` returns `io.EOF` itself and no path
error. -/
theorem Read_EOF_is_not_wrapped :
    Read line0 [0, 0, 0, 0] 3 (some GoError.EOF) = (3, some GoError.EOF) ∧
    ¬ ∃ op path e,
      (Read line0 [0, 0, 0, 0] 3 (some GoError.EOF)).2 = some (GoError.PathError op path e) := by
  refine ⟨by decide, ?_⟩
  rintro ⟨op, path, e, h⟩
  have h2 : (Read line0 [0, 0, 0, 0] 3 (some GoError.EOF)).2 = some GoError.EOF := by decide
  rw [h2] at h
  cases h

/-- C10 amended: for every buffer and every error other than `io.EOF` that
the underlying read reports, `Read` returns the path error with operation
"read", the device path of the stored configuration and that error, next to
the count clamped at zero; `io.EOF` is returned as it is next to the clamped
count. -/
theorem Read_wraps_error (s : Rs232) (b : List Nat) (n : Int) (e : GoError) :
    (e ≠ GoError.EOF →
      Read s b n (some e) = (max n 0, some (GoError.PathError "read" s.config.Name e))) ∧
    Read s b n (some GoError.EOF) = (max n 0, some GoError.EOF) := by
  have hmax : (if n < 0 then 0 else n) = max n 0 := by
    rw [max_def]; split_ifs <;> omega
  constructor
  · intro he
    unfold Read
    simp only [hmax]
    rw [if_neg (by simp), if_neg (by simpa using he)]
  · unfold Read
    simp only [hmax]
    rw [if_neg (by simp)]
    simp

/-- C10 amended, on a four-byte buffer with count -1 and errno 5. -/
theorem Read_wraps_error_witness :
    Read line0 [0, 0, 0, 0] (-1) (some (GoError.errno 5)) =
      (max (-1) 0, some (GoError.PathError "read" line0.config.Name (GoError.errno 5))) :=
  (Read_wraps_error line0 [0, 0, 0, 0] (-1) (GoError.errno 5)).1 (by decide)

/-! ## Write (C11, C12) -/

theorem Write_of_short (s : Rs232) (b : List Nat) (n : Int) (err : Option GoError)
    (h : max n 0 ≠ (b.length : Int)) :
    Write s b n err = (max n 0, some GoError.ErrShortWrite) := by
  have hmax : (if n < 0 then 0 else n) = max n 0 := by
    rw [max_def]; split_ifs <;> omega
  unfold Write
  simp only [hmax]
  rw [if_pos h]

theorem Write_count (s : Rs232) (b : List Nat) (n : Int) (err : Option GoError) :
    (Write s b n err).1 = max n 0 := by
  have hmax : (if n < 0 then 0 else n) = max n 0 := by
    rw [max_def]; split_ifs <;> omega
  unfold Write
  simp only [hmax]
  split_ifs
  · rfl
  · cases err <;> rfl

/-- C11: for every buffer of length N and every underlying write result with
count M < N, `Write` returns the count M clamped at zero and a non-nil error,
whether or not the underlying write reported an error; when it reported none,
that error is `io.ErrShortWrite`. The count returned is the clamped count for
every underlying result. The error part is stated for every count that
`(*os.File).Write` can report, which is never negative, and also for a
negative count on any non-empty buffer. -/
theorem Write_short_count (s : Rs232) (b : List Nat) (n : Int) (err : Option GoError) :
    (Write s b n err).1 = max n 0 ∧
    (0 ≤ n → n < b.length →
      (Write s b n err).2 ≠ none ∧
      (err = none → (Write s b n err).2 = some GoError.ErrShortWrite)) ∧
    (0 < b.length → n < b.length →
      (Write s b n err).2 ≠ none ∧
      (err = none → (Write s b n err).2 = some GoError.ErrShortWrite)) := by
  refine ⟨Write_count s b n err, fun h0 hn => ?_, fun hb hn => ?_⟩
  · have hne : max n 0 ≠ (b.length : Int) := by
      rw [max_def]; split_ifs <;> omega
    rw [Write_of_short s b n err hne]
    exact ⟨by simp, fun _ => rfl⟩
  · have hne : max n 0 ≠ (b.length : Int) := by
      rw [max_def]; split_ifs <;> omega
    rw [Write_of_short s b n err hne]
    exact ⟨by simp, fun _ => rfl⟩

/-- C11 on a five-byte buffer: the underlying write took two bytes without
reporting an error, took none and reported errno 5, or reported the count -1
without an error. -/
theorem Write_short_count_witness :
    (Write line0 [2, 73, 3, 66, 49] 2 none).1 = max 2 0 ∧
    (Write line0 [2, 73, 3, 66, 49] 2 none).2 = some GoError.ErrShortWrite ∧
    (Write line0 [2, 73, 3, 66, 49] 0 (some (GoError.errno 5))).2 ≠ none ∧
    (Write line0 [2, 73, 3, 66, 49] (-1) none).1 = max (-1) 0 ∧
    (Write line0 [2, 73, 3, 66, 49] (-1) none).2 = some GoError.ErrShortWrite :=
  ⟨(Write_short_count line0 [2, 73, 3, 66, 49] 2 none).1,
   ((Write_short_count line0 [2, 73, 3, 66, 49] 2 none).2.1 (by decide) (by decide)).2 rfl,
   ((Write_short_count line0 [2, 73, 3, 66, 49] 0 (some (GoError.errno 5))).2.1
     (by decide) (by decide)).1,
   (Write_short_count line0 [2, 73, 3, 66, 49] (-1) none).1,
   ((Write_short_count line0 [2, 73, 3, 66, 49] (-1) none).2.2 (by decide) (by decide)).2 rfl⟩

/-- C12, evaluated on the code: on a five-byte buffer of which the underlying
write took two bytes and reported errno 5, `Write` returns `io.ErrShortWrite`
and not the path error that wraps errno 5 with "write" and the device path. -/
theorem Write_short_count_hides_error :
    Write line0 [2, 73, 3, 66, 49] 2 (some (GoError.errno 5))
      = (2, some GoError.ErrShortWrite) ∧
    (Write line0 [2, 73, 3, 66, 49] 2 (some (GoError.errno 5))).2
      ≠ some (GoError.PathError "write" line0.config.Name (GoError.errno 5)) := by
  refine ⟨by decide, by decide⟩

/-! ## Close and Open (C13, C14) -/

/-- C13: for every line and every outcome of `Restore`, `Close` gives up the
descriptor and returns exactly what the file close reports: nil when the close
succeeds although `Restore` failed with `e`, and the close error `e` when the
close fails although `Restore` succeeded. -/
theorem Close_returns_release_result (s : Rs232) (restoreFail closeFail : Option GoError)
    (e : GoError) :
    (Close s restoreFail closeFail).1.fd.closed = true ∧
    (Close s restoreFail closeFail).2 = closeFail ∧
    (Restore s (some e)).2 = some e ∧
    (Close s (some e) none).2 = none ∧
    (Close s (some e) none).1.fd.closed = true ∧
    (Restore s none).2 = none ∧
    (Close s none (some e)).2 = some e ∧
    (Close s none (some e)).1.fd.closed = true :=
  ⟨rfl, rfl, rfl, rfl, rfl, rfl, rfl, rfl⟩

/-- C14 as stated fails: when the device opens and the first attribute read
fails with errno 5, `Open` returns no line and errno 5 itself, which is no
path error. -/
theorem Open_getattr_failure_not_wrapped :
    Open line0.config (Except.ok zeroTermios) (some (GoError.errno 5)) none none none
      = (none, some (GoError.errno 5)) ∧
    ¬ ∃ op path e,
      (Open line0.config (Except.ok zeroTermios) (some (GoError.errno 5)) none none none).2
        = some (GoError.PathError op path e) := by
  refine ⟨rfl, ?_⟩
  rintro ⟨op, path, e, h⟩
  have h2 : (Open line0.config (Except.ok zeroTermios) (some (GoError.errno 5))
      none none none).2 = some (GoError.errno 5) := rfl
  rw [h2] at h
  cases h

/-- C14 amended: in each failure case `Open` returns no line and a non-nil
error. When the device cannot be opened the error is the path error wrapping
the underlying error with "open" and the device path of the config; when the
first attribute read, `Configure` (its attribute read or its commit) or the
switch to blocking mode fails, the error is the underlying error itself. -/
theorem Open_failure_cases (cfg : Config) (attrs : Termios) (e : GoError)
    (getFail cfgGetFail cfgSetFail nbFail : Option GoError) :
    Open cfg (Except.error e) getFail cfgGetFail cfgSetFail nbFail
      = (none, some (GoError.PathError "open" cfg.Name e)) ∧
    Open cfg (Except.ok attrs) (some e) cfgGetFail cfgSetFail nbFail = (none, some e) ∧
    Open cfg (Except.ok attrs) none (some e) cfgSetFail nbFail = (none, some e) ∧
    Open cfg (Except.ok attrs) none none (some e) nbFail = (none, some e) ∧
    Open cfg (Except.ok attrs) none none none (some e) = (none, some e) := by
  refine ⟨rfl, rfl, rfl, rfl, ?_⟩
  unfold Open OpenFile Tcgetattr
  simp only [Configure_ok]
  rfl

/-! ## The saved attributes (C15) -/

theorem Open_ok (cfg : Config) (attrs : Termios) :
    Open cfg (Except.ok attrs) none none none none = (some (openedLine cfg attrs), none) := by
  unfold Open OpenFile Tcgetattr
  simp only [Configure_ok]
  rfl

theorem Open_failure_aux (cfg : Config) (attrs : Termios) (e : GoError) :
    Open cfg (Except.ok attrs) none none none (some e) = (none, some e) := by
  unfold Open OpenFile Tcgetattr
  simp only [Configure_ok]
  rfl

theorem Open_success {cfg : Config} {dev : Except GoError Termios}
    {getFail cfgGetFail cfgSetFail nbFail : Option GoError} {s : Rs232}
    (h : Open cfg dev getFail cfgGetFail cfgSetFail nbFail = (some s, none)) :
    dev = Except.ok s.orig ∧ s = openedLine cfg s.orig := by
  cases dev with
  | error e => cases h
  | ok attrs =>
    cases getFail with
    | some e => cases h
    | none =>
      cases cfgGetFail with
      | some e => cases h
      | none =>
        cases cfgSetFail with
        | some e => cases h
        | none =>
          cases nbFail with
          | some e =>
            have h2 := (Open_failure_aux cfg attrs e)
            rw [h2] at h
            cases h
          | none =>
            rw [Open_ok] at h
            cases h
            exact ⟨rfl, rfl⟩

theorem Call_run_orig (s : Rs232) (c : Call) : (Call.run s c).orig = s.orig := by
  cases c with
  | configure cfg getFail setFail =>
    cases getFail with
    | some e => rfl
    | none =>
      cases setFail with
      | some e => rfl
      | none => show (Configure s cfg none none).1.orig = s.orig; rw [Configure_ok]
  | read b n err => rfl
  | write b n err => rfl
  | flush fail => rfl
  | sendBreak fail => rfl

theorem runCalls_orig (s : Rs232) (calls : List Call) : (runCalls s calls).orig = s.orig := by
  induction calls generalizing s with
  | nil => rfl
  | cons c rest ih =>
    show (runCalls (Call.run s c) rest).orig = s.orig
    rw [ih, Call_run_orig]

/-- C15: when `Open` succeeds with line `s`, the saved attributes `s.orig`
are the attributes the device held when it was opened, before `Configure`
ran; after every sequence of `Configure` (with any outcome of its driver
calls), `Read`, `Write`, `Flush` and `SendBreak` calls the saved attributes
are still that record, and a successful `Restore` leaves the device holding
exactly that record. -/
theorem Open_orig_preserved (cfg : Config) (dev : Except GoError Termios)
    (getFail cfgGetFail cfgSetFail nbFail : Option GoError) (s : Rs232) (calls : List Call)
    (h : Open cfg dev getFail cfgGetFail cfgSetFail nbFail = (some s, none)) :
    dev = Except.ok s.orig ∧
    (runCalls s calls).orig = s.orig ∧
    (Restore (runCalls s calls) none).2 = none ∧
    (Restore (runCalls s calls) none).1.fd.attrs = s.orig := by
  refine ⟨(Open_success h).1, runCalls_orig s calls, rfl, ?_⟩
  show (runCalls s calls).orig = s.orig
  exact runCalls_orig s calls

/-- C15 on the device with all-zero attributes opened with the configuration
of `line0`, followed by a failing and a successful `Configure`, a `Write`, a
`Read`, a `Flush` and a `SendBreak`. -/
theorem Open_orig_preserved_witness :
    (Except.ok zeroTermios : Except GoError Termios)
      = Except.ok (openedLine line0.config zeroTermios).orig ∧
    (runCalls (openedLine line0.config zeroTermios)
      [Call.configure { line0.config with BaudRate := 9600 } none (some (GoError.errno 5)),
       Call.configure { line0.config with Parity := ParityOdd } none none,
       Call.write [2, 73, 3, 66, 49] 5 none, Call.read [0, 0, 0, 0] 0 none,
       Call.flush none, Call.sendBreak none]).orig
      = (openedLine line0.config zeroTermios).orig ∧
    (Restore (runCalls (openedLine line0.config zeroTermios)
      [Call.configure { line0.config with BaudRate := 9600 } none (some (GoError.errno 5)),
       Call.configure { line0.config with Parity := ParityOdd } none none,
       Call.write [2, 73, 3, 66, 49] 5 none, Call.read [0, 0, 0, 0] 0 none,
       Call.flush none, Call.sendBreak none]) none).2 = none ∧
    (Restore (runCalls (openedLine line0.config zeroTermios)
      [Call.configure { line0.config with BaudRate := 9600 } none (some (GoError.errno 5)),
       Call.configure { line0.config with Parity := ParityOdd } none none,
       Call.write [2, 73, 3, 66, 49] 5 none, Call.read [0, 0, 0, 0] 0 none,
       Call.flush none, Call.sendBreak none]) none).1.fd.attrs
      = (openedLine line0.config zeroTermios).orig :=
  Open_orig_preserved line0.config (Except.ok zeroTermios) none none none none
    (openedLine line0.config zeroTermios) _ (Open_ok line0.config zeroTermios)

/-! ## Raw mode (C16) -/

theorem andNot_and_sub (a : Nat) {f m : Nat} (h : f &&& m = f) : andNot a m &&& f = 0 := by
  apply Nat.eq_of_testBit_eq
  intro i
  have hi : (f.testBit i && m.testBit i) = f.testBit i := by
    rw [← Nat.testBit_and, h]
  simp only [andNot, Nat.testBit_and, Nat.testBit_xor, Nat.zero_testBit]
  revert hi
  cases a.testBit i <;> cases f.testBit i <;> cases m.testBit i <;> simp

theorem andNot_testBit_of_not_mem (a : Nat) {m i : Nat} (h : m.testBit i = false) :
    (andNot a m).testBit i = a.testBit i := by
  simp only [andNot, Nat.testBit_and, Nat.testBit_xor, h]
  cases a.testBit i <;> rfl

theorem setBaudRate_flags (attr : Termios) (baud : Int) :
    (setBaudRate attr baud).1.Iflag = attr.Iflag ∧
    (setBaudRate attr baud).1.Oflag = attr.Oflag ∧
    (setBaudRate attr baud).1.Lflag = attr.Lflag ∧
    (setBaudRate attr baud).1.Cc = attr.Cc := by
  unfold setBaudRate
  cases baudSwitch baud <;> exact ⟨rfl, rfl, rfl, rfl⟩

theorem setParity_flags (attr : Termios) (parity : Parity) :
    (setParity attr parity).Iflag = attr.Iflag ∧
    (setParity attr parity).Oflag = attr.Oflag ∧
    (setParity attr parity).Lflag = attr.Lflag ∧
    (setParity attr parity).Cc = attr.Cc := by
  unfold setParity
  split_ifs <;> exact ⟨rfl, rfl, rfl, rfl⟩

theorem setStopBits_flags (attr : Termios) (stopbits : StopBits) :
    (setStopBits attr stopbits).Iflag = attr.Iflag ∧
    (setStopBits attr stopbits).Oflag = attr.Oflag ∧
    (setStopBits attr stopbits).Lflag = attr.Lflag ∧
    (setStopBits attr stopbits).Cc = attr.Cc := by
  unfold setStopBits
  split_ifs <;> exact ⟨rfl, rfl, rfl, rfl⟩

theorem setDataBits_flags (attr : Termios) (databits : Int) :
    (setDataBits attr databits).Iflag = attr.Iflag ∧
    (setDataBits attr databits).Oflag = attr.Oflag ∧
    (setDataBits attr databits).Lflag = attr.Lflag ∧
    (setDataBits attr databits).Cc = attr.Cc :=
  ⟨rfl, rfl, rfl, rfl⟩

theorem lineAttr_flags (attr : Termios) (cfg : Config) :
    (lineAttr attr cfg).Iflag = andNot attr.Iflag rawIflagMask ∧
    (lineAttr attr cfg).Oflag = andNot attr.Oflag OPOST ∧
    (lineAttr attr cfg).Lflag = andNot attr.Lflag rawLflagMask ∧
    (lineAttr attr cfg).Cc = attr.Cc := by
  unfold lineAttr
  refine ⟨?_, ?_, ?_, ?_⟩
  · rw [(setDataBits_flags _ _).1, (setStopBits_flags _ _).1, (setParity_flags _ _).1,
      (setBaudRate_flags _ _).1]
    rfl
  · rw [(setDataBits_flags _ _).2.1, (setStopBits_flags _ _).2.1, (setParity_flags _ _).2.1,
      (setBaudRate_flags _ _).2.1]
    rfl
  · rw [(setDataBits_flags _ _).2.2.1, (setStopBits_flags _ _).2.2.1,
      (setParity_flags _ _).2.2.1, (setBaudRate_flags _ _).2.2.1]
    rfl
  · rw [(setDataBits_flags _ _).2.2.2, (setStopBits_flags _ _).2.2.2,
      (setParity_flags _ _).2.2.2, (setBaudRate_flags _ _).2.2.2]
    rfl

theorem timeoutAttr_flags (attr : Termios) (stored : Config) :
    (timeoutAttr attr stored).Iflag = attr.Iflag ∧
    (timeoutAttr attr stored).Oflag = attr.Oflag ∧
    (timeoutAttr attr stored).Lflag = attr.Lflag := by
  unfold timeoutAttr
  split_ifs <;> exact ⟨rfl, rfl, rfl⟩

theorem Configure_flags (s : Rs232) (cfg : Config) :
    (Configure s cfg none none).1.fd.attrs.Iflag = andNot s.fd.attrs.Iflag rawIflagMask ∧
    (Configure s cfg none none).1.fd.attrs.Oflag = andNot s.fd.attrs.Oflag OPOST ∧
    (Configure s cfg none none).1.fd.attrs.Lflag = andNot s.fd.attrs.Lflag rawLflagMask := by
  rw [Configure_ok]
  refine ⟨?_, ?_, ?_⟩
  · exact ((timeoutAttr_flags _ _).1).trans (lineAttr_flags _ _).1
  · exact ((timeoutAttr_flags _ _).2.1).trans (lineAttr_flags _ _).2.1
  · exact ((timeoutAttr_flags _ _).2.2).trans (lineAttr_flags _ _).2.2.1

/-- C16: in the attributes committed by `Configure` each of the input flags
IGNBRK, BRKINT, PARMRK, INLCR, IGNCR, ICRNL, ISTRIP, IXON is clear, each of
the local flags ECHO, ECHONL, ICANON, IEXTEN, ISIG is clear and the output
flag OPOST is clear, while every bit of the input, local and output flag
words that is not one of these flags is as it was read from the device. -/
theorem Configure_raw_mode (s : Rs232) (cfg : Config) :
    (∀ f ∈ [IGNBRK, BRKINT, PARMRK, INLCR, IGNCR, ICRNL, ISTRIP, IXON],
      (Configure s cfg none none).1.fd.attrs.Iflag &&& f = 0) ∧
    (∀ f ∈ [ECHO, ECHONL, ICANON, IEXTEN, ISIG],
      (Configure s cfg none none).1.fd.attrs.Lflag &&& f = 0) ∧
    (Configure s cfg none none).1.fd.attrs.Oflag &&& OPOST = 0 ∧
    (∀ i, (IGNBRK ||| BRKINT ||| PARMRK ||| INLCR ||| IGNCR ||| ICRNL ||| ISTRIP
            ||| IXON).testBit i = false →
      (Configure s cfg none none).1.fd.attrs.Iflag.testBit i = s.fd.attrs.Iflag.testBit i) ∧
    (∀ i, (ECHO ||| ECHONL ||| ICANON ||| IEXTEN ||| ISIG).testBit i = false →
      (Configure s cfg none none).1.fd.attrs.Lflag.testBit i = s.fd.attrs.Lflag.testBit i) ∧
    (∀ i, OPOST.testBit i = false →
      (Configure s cfg none none).1.fd.attrs.Oflag.testBit i
        = s.fd.attrs.Oflag.testBit i) := by
  have hI : ∀ f ∈ [IGNBRK, BRKINT, PARMRK, INLCR, IGNCR, ICRNL, ISTRIP, IXON],
      f &&& rawIflagMask = f := by decide
  have hL : ∀ f ∈ [ECHO, ECHONL, ICANON, IEXTEN, ISIG], f &&& rawLflagMask = f := by decide
  obtain ⟨eI, eO, eL⟩ := Configure_flags s cfg
  rw [eI, eO, eL]
  refine ⟨fun f hf => andNot_and_sub _ (hI f hf), fun f hf => andNot_and_sub _ (hL f hf),
    andNot_and_self _ _, fun i hi => andNot_testBit_of_not_mem _ hi,
    fun i hi => andNot_testBit_of_not_mem _ hi, fun i hi => andNot_testBit_of_not_mem _ hi⟩

/-- C16 on a device whose input, local and output flag words have all of the
low sixteen bits set: ICRNL, ICANON and OPOST are clear after `Configure`,
while bit 2 of the input flags (IGNPAR), bit 4 of the local flags (ECHOE) and
bit 2 of the output flags (ONLCR) are still set. -/
theorem Configure_raw_mode_witness :
    (Configure { line0 with fd := { line0.fd with attrs :=
        { zeroTermios with Iflag := 0xffff, Lflag := 0xffff, Oflag := 0xffff } } }
      line0.config none none).1.fd.attrs.Iflag &&& ICRNL = 0 ∧
    (Configure { line0 with fd := { line0.fd with attrs :=
        { zeroTermios with Iflag := 0xffff, Lflag := 0xffff, Oflag := 0xffff } } }
      line0.config none none).1.fd.attrs.Lflag &&& ICANON = 0 ∧
    (Configure { line0 with fd := { line0.fd with attrs :=
        { zeroTermios with Iflag := 0xffff, Lflag := 0xffff, Oflag := 0xffff } } }
      line0.config none none).1.fd.attrs.Oflag &&& OPOST = 0 ∧
    (Configure { line0 with fd := { line0.fd with attrs :=
        { zeroTermios with Iflag := 0xffff, Lflag := 0xffff, Oflag := 0xffff } } }
      line0.config none none).1.fd.attrs.Iflag.testBit 2 = (0xffff : Nat).testBit 2 ∧
    (Configure { line0 with fd := { line0.fd with attrs :=
        { zeroTermios with Iflag := 0xffff, Lflag := 0xffff, Oflag := 0xffff } } }
      line0.config none none).1.fd.attrs.Lflag.testBit 4 = (0xffff : Nat).testBit 4 ∧
    (Configure { line0 with fd := { line0.fd with attrs :=
        { zeroTermios with Iflag := 0xffff, Lflag := 0xffff, Oflag := 0xffff } } }
      line0.config none none).1.fd.attrs.Oflag.testBit 2 = (0xffff : Nat).testBit 2 :=
  ⟨(Configure_raw_mode _ line0.config).1 ICRNL (by decide),
   (Configure_raw_mode _ line0.config).2.1 ICANON (by decide),
   (Configure_raw_mode _ line0.config).2.2.1,
   (Configure_raw_mode _ line0.config).2.2.2.1 2 (by decide),
   (Configure_raw_mode _ line0.config).2.2.2.2.1 4 (by decide),
   (Configure_raw_mode _ line0.config).2.2.2.2.2 2 (by decide)⟩

/-! ## Read timeout after Open (C17) -/

theorem timeoutAttr_Cc_pos (attr : Termios) (stored : Config) (h : 0 < stored.ReadTimeout) :
    (timeoutAttr attr stored).Cc VMIN = 0 ∧
    (timeoutAttr attr stored).Cc VTIME = uint8 stored.ReadTimeout := by
  unfold timeoutAttr
  rw [if_pos h]
  constructor
  · show Function.update (Function.update attr.Cc VMIN 0) VTIME
      (uint8 stored.ReadTimeout) VMIN = 0
    rw [Function.update_noteq (by decide), Function.update_same]
  · show Function.update (Function.update attr.Cc VMIN 0) VTIME
      (uint8 stored.ReadTimeout) VTIME = uint8 stored.ReadTimeout
    rw [Function.update_same]

theorem uint8_cast (x : Int) : ((uint8 x : Nat) : Int) = x % 256 := by
  unfold uint8
  exact Int.toNat_of_nonneg (Int.emod_nonneg x (by decide))

/-- C17 as stated fails: a line opened with `ReadTimeout = 256` commits
`VMIN = 0` and `VTIME = 0`, since the eight-bit cell keeps 256 modulo 256. -/
theorem Open_timeout_256_commits_zero :
    (Open { line0.config with ReadTimeout := 256 } (Except.ok zeroTermios)
      none none none none).2 = none ∧
    (Open { line0.config with ReadTimeout := 256 } (Except.ok zeroTermios)
      none none none none).1.map (fun s => s.fd.attrs.Cc VMIN) = some 0 ∧
    (Open { line0.config with ReadTimeout := 256 } (Except.ok zeroTermios)
      none none none none).1.map (fun s => s.fd.attrs.Cc VTIME) = some 0 := by
  refine ⟨by decide, by decide, by decide⟩

/-- C17 amended: for every config whose `ReadTimeout` T is greater than 0,
`Open` with that config (every system call succeeding) returns a line whose
committed attributes have `VMIN = 0` and a `VTIME` below 256 equal to T modulo
256; it equals T when T is at most 255. -/
theorem Open_timeout (cfg : Config) (attrs : Termios) (h : 0 < cfg.ReadTimeout) :
    (Open cfg (Except.ok attrs) none none none none).2 = none ∧
    (Open cfg (Except.ok attrs) none none none none).1.map (fun s => s.fd.attrs.Cc VMIN)
      = some 0 ∧
    (Open cfg (Except.ok attrs) none none none none).1.map
      (fun s => ((s.fd.attrs.Cc VTIME : Nat) : Int)) = some (cfg.ReadTimeout % 256) ∧
    (Open cfg (Except.ok attrs) none none none none).1.map
      (fun s => decide (s.fd.attrs.Cc VTIME < 256)) = some true ∧
    (cfg.ReadTimeout ≤ 255 →
      (Open cfg (Except.ok attrs) none none none none).1.map
        (fun s => ((s.fd.attrs.Cc VTIME : Nat) : Int)) = some cfg.ReadTimeout) := by
  have hc := timeoutAttr_Cc_pos (lineAttr attrs cfg) cfg h
  have hv : (((openedLine cfg attrs).fd.attrs.Cc VTIME : Nat) : Int) = cfg.ReadTimeout % 256 := by
    show (((timeoutAttr (lineAttr attrs cfg) cfg).Cc VTIME : Nat) : Int) = _
    rw [hc.2, uint8_cast]
  rw [Open_ok]
  refine ⟨rfl, ?_, ?_, ?_, fun h255 => ?_⟩
  · show some ((timeoutAttr (lineAttr attrs cfg) cfg).Cc VMIN) = some 0
    rw [hc.1]
  · show some (((openedLine cfg attrs).fd.attrs.Cc VTIME : Nat) : Int) = _
    rw [hv]
  · show some (decide ((openedLine cfg attrs).fd.attrs.Cc VTIME < 256)) = some true
    have hlt : (openedLine cfg attrs).fd.attrs.Cc VTIME < 256 := by
      have := Int.emod_lt_of_pos cfg.ReadTimeout (show (0 : Int) < 256 by decide)
      omega
    rw [decide_eq_true hlt]
  · show some (((openedLine cfg attrs).fd.attrs.Cc VTIME : Nat) : Int) = _
    rw [hv, Int.emod_eq_of_lt (le_of_lt h) (by omega)]

/-- C17 amended, on the configuration of the example program, whose
`ReadTimeout` is 10. -/
theorem Open_timeout_witness :
    (Open { line0.config with ReadTimeout := 10 } (Except.ok zeroTermios)
      none none none none).1.map (fun s => s.fd.attrs.Cc VMIN) = some 0 ∧
    (Open { line0.config with ReadTimeout := 10 } (Except.ok zeroTermios)
      none none none none).1.map (fun s => ((s.fd.attrs.Cc VTIME : Nat) : Int)) = some 10 :=
  ⟨(Open_timeout { line0.config with ReadTimeout := 10 } zeroTermios (by decide)).2.1,
   (Open_timeout { line0.config with ReadTimeout := 10 } zeroTermios (by decide)).2.2.2.2
     (by decide)⟩

/-! ## The setters on their own (C18, C19) -/

/-- C18: for every attribute record and every baud value outside the fixed
table `setBaudRate` returns `EINVAL` and leaves the record as it was; and for
every baud value, whenever `setBaudRate` returns an error the record is
unchanged. -/
theorem setBaudRate_error_unchanged (attr : Termios) (baud : Int) :
    (baud ∉ baudTable.map Prod.fst → setBaudRate attr baud = (attr, some EINVAL)) ∧
    ((setBaudRate attr baud).2 ≠ none → (setBaudRate attr baud).1 = attr) := by
  constructor
  · intro h
    exact setBaudRate_of_default (baudSwitch_of_not_mem h)
  · intro h
    cases hb : baudSwitch baud with
    | none => rw [setBaudRate_of_default hb]
    | some rate =>
      rw [setBaudRate_of_switch hb] at h
      exact absurd rfl h

/-- C18 on a record with control flags `0xbd`, input speed 13 and output
speed 13, at the baud value 12345. -/
theorem setBaudRate_error_unchanged_witness :
    setBaudRate { zeroTermios with Cflag := 0xbd, Ispeed := 13, Ospeed := 13 } 12345
      = ({ zeroTermios with Cflag := 0xbd, Ispeed := 13, Ospeed := 13 }, some EINVAL) ∧
    (setBaudRate { zeroTermios with Cflag := 0xbd, Ispeed := 13, Ospeed := 13 } 12345).1
      = { zeroTermios with Cflag := 0xbd, Ispeed := 13, Ospeed := 13 } :=
  ⟨(setBaudRate_error_unchanged _ 12345).1 (by decide),
   (setBaudRate_error_unchanged _ 12345).2 (by decide)⟩

/-- C19: for every attribute record and every `DataBits` value outside 5..8,
`setDataBits` produces exactly the record it produces for `DataBits = 5`;
the mask `CS5` is zero, and the size field of that record is zero. -/
theorem setDataBits_unsupported_is_five (attr : Termios) (databits : Int)
    (h : databits < 5 ∨ 8 < databits) :
    setDataBits attr databits = setDataBits attr 5 ∧
    CS5 = 0 ∧
    (setDataBits attr databits).Cflag &&& CSIZE = 0 := by
  have e : setDataBits attr databits = setDataBits attr 5 := by
    unfold setDataBits
    rw [if_neg (by omega), if_neg (by omega), if_neg (by omega), if_neg (by omega)]
    rfl
  refine ⟨e, rfl, ?_⟩
  rw [e, setDataBits_Cflag]
  exact andNot_or_and _ (sizeBits_sub 5)

/-- C19 on a record with control flags `0xbd` and `DataBits = 9`. -/
theorem setDataBits_unsupported_is_five_witness :
    setDataBits { zeroTermios with Cflag := 0xbd } 9
      = setDataBits { zeroTermios with Cflag := 0xbd } 5 ∧
    CS5 = 0 ∧
    (setDataBits { zeroTermios with Cflag := 0xbd } 9).Cflag &&& CSIZE = 0 :=
  setDataBits_unsupported_is_five { zeroTermios with Cflag := 0xbd } 9 (Or.inr (by decide))

/-! ## The setters act on disjoint fields (C20) -/

theorem andNot_zero (a : Nat) : andNot a 0 = a := by
  apply Nat.eq_of_testBit_eq
  intro i
  simp only [andNot, Nat.testBit_and, Nat.testBit_xor, Nat.zero_testBit]
  cases a.testBit i <;> rfl

theorem andNot_or_disjoint (a : Nat) {m k : Nat} (h : m &&& k = 0) :
    andNot (a ||| m) k = andNot a k ||| m := by
  apply Nat.eq_of_testBit_eq
  intro i
  have hi := testBit_disjoint h i
  simp only [andNot, Nat.testBit_and, Nat.testBit_or, Nat.testBit_xor]
  revert hi
  cases a.testBit i <;> cases m.testBit i <;> cases k.testBit i <;> simp

theorem testBit_sub {r m : Nat} (h : r &&& m = r) (i : Nat) :
    (r.testBit i && m.testBit i) = r.testBit i := by
  rw [← Nat.testBit_and, h]

theorem update_comm (a : Nat) {c1 s1 m1 c2 s2 m2 : Nat}
    (hc1 : c1 &&& m1 = c1) (hs1 : s1 &&& m1 = s1)
    (hc2 : c2 &&& m2 = c2) (hs2 : s2 &&& m2 = s2) (hd : m1 &&& m2 = 0) :
    andNot (andNot a c1 ||| s1) c2 ||| s2 = andNot (andNot a c2 ||| s2) c1 ||| s1 := by
  apply Nat.eq_of_testBit_eq
  intro i
  have h1 := testBit_sub hc1 i
  have h2 := testBit_sub hs1 i
  have h3 := testBit_sub hc2 i
  have h4 := testBit_sub hs2 i
  have h5 := testBit_disjoint hd i
  simp only [andNot, Nat.testBit_and, Nat.testBit_or, Nat.testBit_xor]
  revert h1 h2 h3 h4 h5
  cases a.testBit i <;> cases c1.testBit i <;> cases s1.testBit i <;> cases m1.testBit i <;>
    cases c2.testBit i <;> cases s2.testBit i <;> cases m2.testBit i <;> simp

theorem update_idem (a c s : Nat) :
    andNot (andNot a c ||| s) c ||| s = andNot a c ||| s := by
  apply Nat.eq_of_testBit_eq
  intro i
  simp only [andNot, Nat.testBit_and, Nat.testBit_or, Nat.testBit_xor]
  cases a.testBit i <;> cases c.testBit i <;> cases s.testBit i <;> rfl

theorem update_frame (a : Nat) {c s m : Nat} (hc : c &&& m = c) (hs : s &&& m = s) :
    andNot (andNot a c ||| s) m = andNot a m := by
  apply Nat.eq_of_testBit_eq
  intro i
  have h1 := testBit_sub hc i
  have h2 := testBit_sub hs i
  simp only [andNot, Nat.testBit_and, Nat.testBit_or, Nat.testBit_xor]
  revert h1 h2
  cases a.testBit i <;> cases c.testBit i <;> cases s.testBit i <;> cases m.testBit i <;> simp

theorem fieldUpdate_id (attr : Termios) : fieldUpdate 0 0 none attr = attr := by
  unfold fieldUpdate
  simp only [andNot_zero, Nat.or_zero, Option.getD_none]

/-- Every setter call is a field update inside its own mask; only the baud
setter stores a speed. -/
theorem Setter_run_form (x : Setter) :
    ∃ clr set speed, clr &&& x.mask = clr ∧ set &&& x.mask = set ∧
      (speed ≠ none → x.mask = CBAUD) ∧
      ∀ attr, Setter.run attr x = fieldUpdate clr set speed attr := by
  cases x with
  | baud baud =>
    show ∃ clr set speed, clr &&& CBAUD = clr ∧ set &&& CBAUD = set ∧
      (speed ≠ none → CBAUD = CBAUD) ∧
      ∀ attr, (setBaudRate attr baud).1 = fieldUpdate clr set speed attr
    cases hb : baudSwitch baud with
    | none =>
      refine ⟨0, 0, none, by decide, by decide, fun _ => rfl, fun attr => ?_⟩
      rw [setBaudRate_of_default hb, fieldUpdate_id]
    | some rate =>
      refine ⟨0, rate, some rate, by decide, baudSwitch_sub hb, fun _ => rfl, fun attr => ?_⟩
      rw [setBaudRate_of_switch hb]
      unfold fieldUpdate
      simp only [andNot_zero, Option.getD_some]
  | parity parity =>
    show ∃ clr set speed, clr &&& (PARENB ||| PARODD) = clr ∧
      set &&& (PARENB ||| PARODD) = set ∧
      (speed ≠ none → PARENB ||| PARODD = CBAUD) ∧
      ∀ attr, setParity attr parity = fieldUpdate clr set speed attr
    by_cases h0 : parity = ParityNone
    · refine ⟨PARENB, 0, none, by decide, by decide, fun h => absurd rfl h, fun attr => ?_⟩
      unfold setParity fieldUpdate
      rw [if_pos h0]
      simp only [Nat.or_zero, Option.getD_none]
    · by_cases h1 : parity = ParityEven
      · refine ⟨PARODD, PARENB, none, by decide, by decide, fun h => absurd rfl h,
          fun attr => ?_⟩
        unfold setParity fieldUpdate
        rw [if_neg h0, if_pos h1]
        simp only [Option.getD_none]
        rw [andNot_or_disjoint _ (by decide)]
      · by_cases h2 : parity = ParityOdd
        · refine ⟨0, PARENB ||| PARODD, none, by decide, by decide, fun h => absurd rfl h,
            fun attr => ?_⟩
          unfold setParity fieldUpdate
          rw [if_neg h0, if_neg h1, if_pos h2]
          simp only [Option.getD_none, andNot_zero, Nat.or_assoc]
        · refine ⟨0, 0, none, by decide, by decide, fun h => absurd rfl h, fun attr => ?_⟩
          unfold setParity
          rw [if_neg h0, if_neg h1, if_neg h2, fieldUpdate_id]
  | stopBits stopbits =>
    show ∃ clr set speed, clr &&& CSTOPB = clr ∧ set &&& CSTOPB = set ∧
      (speed ≠ none → CSTOPB = CBAUD) ∧
      ∀ attr, setStopBits attr stopbits = fieldUpdate clr set speed attr
    by_cases h0 : stopbits = StopBits1
    · refine ⟨CSTOPB, 0, none, by decide, by decide, fun h => absurd rfl h, fun attr => ?_⟩
      unfold setStopBits fieldUpdate
      rw [if_pos h0]
      simp only [Nat.or_zero, Option.getD_none]
    · by_cases h1 : stopbits = StopBits2
      · refine ⟨0, CSTOPB, none, by decide, by decide, fun h => absurd rfl h, fun attr => ?_⟩
        unfold setStopBits fieldUpdate
        rw [if_neg h0, if_pos h1]
        simp only [Option.getD_none, andNot_zero]
      · refine ⟨0, 0, none, by decide, by decide, fun h => absurd rfl h, fun attr => ?_⟩
        unfold setStopBits
        rw [if_neg h0, if_neg h1, fieldUpdate_id]
  | dataBits databits =>
    show ∃ clr set speed, clr &&& CSIZE = clr ∧ set &&& CSIZE = set ∧
      (speed ≠ none → CSIZE = CBAUD) ∧
      ∀ attr, setDataBits attr databits = fieldUpdate clr set speed attr
    exact ⟨CSIZE, sizeBits databits, none, by decide, sizeBits_sub databits,
      fun h => absurd rfl h, fun attr => rfl⟩

theorem fieldUpdate_comm (attr : Termios) {c1 s1 m1 c2 s2 m2 : Nat} {sp1 sp2 : Option Nat}
    (hc1 : c1 &&& m1 = c1) (hs1 : s1 &&& m1 = s1)
    (hc2 : c2 &&& m2 = c2) (hs2 : s2 &&& m2 = s2) (hd : m1 &&& m2 = 0)
    (hsp : sp1 = none ∨ sp2 = none) :
    fieldUpdate c2 s2 sp2 (fieldUpdate c1 s1 sp1 attr)
      = fieldUpdate c1 s1 sp1 (fieldUpdate c2 s2 sp2 attr) := by
  unfold fieldUpdate
  simp only
  rw [update_comm attr.Cflag hc1 hs1 hc2 hs2 hd]
  rcases hsp with h | h <;> subst h <;> simp only [Option.getD_none]

/-- Two setter calls whose masks are disjoint can be exchanged. -/
theorem Setter_run_comm (x y : Setter) (hd : x.mask &&& y.mask = 0) (attr : Termios) :
    Setter.run (Setter.run attr x) y = Setter.run (Setter.run attr y) x := by
  obtain ⟨c1, s1, sp1, hc1, hs1, hm1, e1⟩ := Setter_run_form x
  obtain ⟨c2, s2, sp2, hc2, hs2, hm2, e2⟩ := Setter_run_form y
  rw [e1, e2, e2, e1]
  refine fieldUpdate_comm attr hc1 hs1 hc2 hs2 hd ?_
  by_cases h1 : sp1 = none
  · exact Or.inl h1
  · by_cases h2 : sp2 = none
    · exact Or.inr h2
    · rw [hm1 h1, hm2 h2] at hd
      exact absurd hd (by decide)

theorem Setter_run_idem (x : Setter) (attr : Termios) :
    Setter.run (Setter.run attr x) x = Setter.run attr x := by
  obtain ⟨c, s, sp, _, _, _, e⟩ := Setter_run_form x
  rw [e, e]
  unfold fieldUpdate
  simp only
  rw [update_idem]
  cases sp <;> rfl

theorem Setter_run_frame (x : Setter) (attr : Termios) :
    andNot (Setter.run attr x).Cflag x.mask = andNot attr.Cflag x.mask := by
  obtain ⟨c, s, sp, hc, hs, _, e⟩ := Setter_run_form x
  rw [e]
  exact update_frame attr.Cflag hc hs

/-- The four setter calls of one `Configure`, taken two at a time, can be
exchanged. -/
theorem Setter_run_comm_of_mem (baud : Int) (parity : Parity) (stopbits : StopBits)
    (databits : Int) :
    ∀ x ∈ [Setter.baud baud, Setter.parity parity, Setter.stopBits stopbits,
        Setter.dataBits databits],
    ∀ y ∈ [Setter.baud baud, Setter.parity parity, Setter.stopBits stopbits,
        Setter.dataBits databits],
    ∀ attr, Setter.run (Setter.run attr x) y = Setter.run (Setter.run attr y) x := by
  intro x hx y hy attr
  simp only [List.mem_cons, List.mem_singleton, List.not_mem_nil, or_false] at hx hy
  rcases hx with rfl | rfl | rfl | rfl <;> rcases hy with rfl | rfl | rfl | rfl <;>
    first
    | rfl
    | (refine Setter_run_comm _ _ ?_ attr; simp only [Setter.mask]; decide)

/-- C20: the fields `CBAUD`, `PARENB|PARODD`, `CSTOPB` and `CSIZE` are
pairwise disjoint; each of `setBaudRate`, `setParity`, `setStopBits`,
`setDataBits` leaves every control-flag bit outside its own field unchanged;
applying the four setters in any order gives the same record as applying them
in the order baud, parity, stop bits, data bits; and `setParity`,
`setStopBits`, `setDataBits` are idempotent. This holds for every record and
every argument of the setters, supported or not. -/
theorem setters_disjoint_commute (attr : Termios) (baud : Int) (parity : Parity)
    (stopbits : StopBits) (databits : Int) :
    (CBAUD &&& (PARENB ||| PARODD) = 0 ∧ CBAUD &&& CSTOPB = 0 ∧ CBAUD &&& CSIZE = 0 ∧
      (PARENB ||| PARODD) &&& CSTOPB = 0 ∧ (PARENB ||| PARODD) &&& CSIZE = 0 ∧
      CSTOPB &&& CSIZE = 0) ∧
    (andNot (setBaudRate attr baud).1.Cflag CBAUD = andNot attr.Cflag CBAUD ∧
      andNot (setParity attr parity).Cflag (PARENB ||| PARODD)
        = andNot attr.Cflag (PARENB ||| PARODD) ∧
      andNot (setStopBits attr stopbits).Cflag CSTOPB = andNot attr.Cflag CSTOPB ∧
      andNot (setDataBits attr databits).Cflag CSIZE = andNot attr.Cflag CSIZE) ∧
    (∀ calls : List Setter,
      calls.Perm [Setter.baud baud, Setter.parity parity, Setter.stopBits stopbits,
        Setter.dataBits databits] →
      applySetters attr calls
        = setDataBits (setStopBits (setParity (setBaudRate attr baud).1 parity) stopbits)
            databits) ∧
    (setParity (setParity attr parity) parity = setParity attr parity ∧
      setStopBits (setStopBits attr stopbits) stopbits = setStopBits attr stopbits ∧
      setDataBits (setDataBits attr databits) databits = setDataBits attr databits) := by
  refine ⟨by decide, ⟨?_, ?_, ?_, ?_⟩, fun calls hp => ?_, ⟨?_, ?_, ?_⟩⟩
  · exact Setter_run_frame (Setter.baud baud) attr
  · exact Setter_run_frame (Setter.parity parity) attr
  · exact Setter_run_frame (Setter.stopBits stopbits) attr
  · exact Setter_run_frame (Setter.dataBits databits) attr
  · have hcomm := Setter_run_comm_of_mem baud parity stopbits databits
    have e := List.Perm.foldl_eq' hp.symm
      (fun x hx y hy z => hcomm x hx y hy z) attr
    exact e.symm
  · exact Setter_run_idem (Setter.parity parity) attr
  · exact Setter_run_idem (Setter.stopBits stopbits) attr
  · exact Setter_run_idem (Setter.dataBits databits) attr

/-- C20 on a record with control flags `0xbd`, for 115200 baud, odd parity,
two stop bits and 7 data bits, applied in the reverse order. -/
theorem setters_disjoint_commute_witness :
    applySetters { zeroTermios with Cflag := 0xbd }
      [Setter.dataBits 7, Setter.stopBits StopBits2, Setter.parity ParityOdd,
       Setter.baud 115200]
      = setDataBits (setStopBits (setParity
          (setBaudRate { zeroTermios with Cflag := 0xbd } 115200).1 ParityOdd) StopBits2) 7 :=
  (setters_disjoint_commute { zeroTermios with Cflag := 0xbd } 115200 ParityOdd StopBits2
    7).2.2.1 _ (List.reverse_perm
      [Setter.baud 115200, Setter.parity ParityOdd, Setter.stopBits StopBits2,
       Setter.dataBits 7])

end Serial
